import Mathlib

/-!
Shallow embedding of the matching and scoring core of `main.py` of the
pet-sitter matching API: the haversine distance function, the four
scoring functions, and the scoring-and-ranking pipeline of
`match_sitters`.

Modelling conventions:
* Python `str` values are Lean `String`s; the Python string operations
  used by the code (`split`, `strip`, `lower`) are embedded as total
  functions over `String.data` so that every definition evaluates.
* A value that may be Python `None` is an `Option String`; `pyStr`
  models Python `str(x)` on it (`str(None) == "None"`).
* Machine floats are modelled by exact numbers: `ℝ` for the haversine
  formula (transcendental functions), `ℚ` for distances fed to the
  scoring rules, `ℤ` for point values.
* A `try`/`except` that returns a default models as a total function
  returning the default on the failing inputs (parse failures are
  `Option` `none`s, bad coordinates are `PyNum.invalid`).
-/

namespace PetSitter

/-- Python `str(x)` for a value that is either a string or `None`:
`str(None)` is the four-character string `"None"`. -/
def pyStr : Option String → String
  | none => "None"
  | some s => s

/-- Python `x or y` on an optional string: `y` when `x` is `None` or
empty (falsy), otherwise `x`.  Models `request.endDate or
request.startDate` in `match_sitters`. -/
def pyOr (x : Option String) (y : String) : String :=
  match x with
  | none => y
  | some s => if s = "" then y else s

/-- Helper for `pySplit`: walks the character list, accumulating the
current piece in reverse. -/
def pySplitAux (sep : Char) : List Char → List Char → List String
  | [], acc => [String.mk acc.reverse]
  | c :: cs, acc =>
    if c = sep then String.mk acc.reverse :: pySplitAux sep cs []
    else pySplitAux sep cs (c :: acc)

/-- Python `s.split(sep)` for a one-character separator: splits at every
occurrence and keeps empty pieces, so `"".split(",") == [""]`. -/
def pySplit (s : String) (sep : Char) : List String :=
  pySplitAux sep s.data []

/-- Python `s.strip()`: remove leading and trailing whitespace. -/
def pyStrip (s : String) : String :=
  String.mk (((s.data.dropWhile Char.isWhitespace).reverse.dropWhile
    Char.isWhitespace).reverse)

/-- Python `s.lower()` (ASCII case mapping, which covers the data the
scoring rules compare). -/
def pyLower (s : String) : String :=
  String.mk (s.data.map Char.toLower)

/-- The normalized special-needs tag set built by
`calculate_special_needs_score`: split on commas, keep the tokens whose
strip is nonempty, strip and lowercase each, and collect into a set. -/
def needsSet (s : String) : Finset String :=
  (((pySplit s ',').filter (fun t => pyStrip t != "")).map
    (fun t => pyLower (pyStrip t))).toFinset

/-- The function `calculate_special_needs_score` of `main.py`
(0-20 points, asymmetric coverage of the owner's needs), with the float
arithmetic of `coverage * 20` carried out exactly in `ℚ`. -/
def calculate_special_needs_score (owner_needs sitter_needs : String) : ℤ :=
  if owner_needs = "" ∨ sitter_needs = "" ∨
      pyLower owner_needs ∈ ["none", "n/a", ""] ∨
      pyLower sitter_needs ∈ ["none", "n/a", ""] then 0
  else if needsSet owner_needs = ∅ ∨ needsSet sitter_needs = ∅ then 0
  else
    ⌈((needsSet owner_needs ∩ needsSet sitter_needs).card : ℚ) /
      ((needsSet owner_needs).card : ℚ) * 20⌉

/-- The function `calculate_distance_score` of `main.py`: the step
function from distance in miles to 10-40 points. -/
def calculate_distance_score (distance : ℚ) : ℤ :=
  if distance ≤ 5 then 40
  else if distance ≤ 10 then 35
  else if distance ≤ 15 then 30
  else if distance ≤ 20 then 25
  else if distance ≤ 30 then 20
  else if distance ≤ 50 then 15
  else 10

/-- A calendar date, as produced by `datetime.strptime(s, "%Y-%m-%d")`
(the time-of-day components are always zero and are omitted). -/
structure Date where
  year : ℕ
  month : ℕ
  day : ℕ
deriving DecidableEq

/-- Leap-year rule of the Gregorian calendar, as used by `datetime` to
validate the day of the month. -/
def isLeapYear (y : ℕ) : Bool :=
  (y % 4 == 0 && y % 100 != 0) || y % 400 == 0

/-- Number of days of month `m` of year `y`. -/
def daysInMonth (y m : ℕ) : ℕ :=
  if m = 2 then (if isLeapYear y then 29 else 28)
  else if m = 4 ∨ m = 6 ∨ m = 9 ∨ m = 11 then 30
  else 31

/-- Numeric value of one ASCII digit. -/
def digitVal (c : Char) : ℕ := c.toNat - 48

/-- Numeric value of a run of ASCII digits (what `int(...)` computes on
a matched field). -/
def digitsVal (l : List Char) : ℕ :=
  l.foldl (fun n c => 10 * n + digitVal c) 0

/-- Field `%Y` of CPython's `strptime`: its pattern is four digits
exactly, so a three-digit year like "999" or a five-digit one like
"10000" fails to match and `strptime` raises. -/
def parseYear? (l : List Char) : Option ℕ :=
  if l.length = 4 ∧ l.all Char.isDigit then some (digitsVal l) else none

/-- Field `%m` of CPython's `strptime` (pattern 1[0-2], 0[1-9] or
[1-9]): on a dash-delimited field this accepts exactly the one- or
two-digit runs whose value is 1-12; anything longer, empty, or out of
range leaves unmatched characters and `strptime` raises. -/
def parseMonth? (l : List Char) : Option ℕ :=
  if (l.length = 1 ∨ l.length = 2) ∧ l.all Char.isDigit then
    if 1 ≤ digitsVal l ∧ digitsVal l ≤ 12 then some (digitsVal l) else none
  else none

/-- Field `%d` of CPython's `strptime` (pattern 3[0-1], [1-2] then a
digit, 0[1-9], [1-9], or a space then [1-9]): on a dash-delimited field
this accepts the one- or two-digit runs whose value is 1-31, plus the
space-padded forms " 1" .. " 9". -/
def parseDay? (l : List Char) : Option ℕ :=
  match l with
  | [' ', c] =>
    if '1' ≤ c ∧ c ≤ '9' then some (digitVal c) else none
  | _ =>
    if (l.length = 1 ∨ l.length = 2) ∧ l.all Char.isDigit then
      if 1 ≤ digitsVal l ∧ digitsVal l ≤ 31 then some (digitsVal l) else none
    else none

/-- Parsing `datetime.strptime(s, "%Y-%m-%d")`: `some` of the calendar
date when the three dash-separated fields match CPython's `%Y`, `%m`
and `%d` patterns (year of exactly four digits, month and day of one or
two digits in range, day also in space-padded form) and the result is a
valid date with year at least 1; `none` when `strptime` raises
`ValueError`.  Digits are ASCII, the character class of the data
involved. -/
def parseDate (s : String) : Option Date :=
  match pySplit s '-' with
  | [ys, ms, ds] =>
    match parseYear? ys.data, parseMonth? ms.data, parseDay? ds.data with
    | some y, some m, some d =>
      if 1 ≤ y ∧ d ≤ daysInMonth y m then some ⟨y, m, d⟩ else none
    | _, _, _ => none
  | _ => none

/-- Chronological order on calendar dates, the order `datetime`
comparison implements: lexicographic on (year, month, day). -/
def dateLe (a b : Date) : Prop :=
  a.year < b.year ∨ (a.year = b.year ∧
    (a.month < b.month ∨ (a.month = b.month ∧ a.day ≤ b.day)))

instance (a b : Date) : Decidable (dateLe a b) := by
  unfold dateLe; infer_instance

/-- The function `calculate_availability_score` of `main.py`: 40 points
when the requested interval is contained in the availability window,
0 otherwise, and 0 whenever any involved date fails to parse (the
`except` branch).  An empty `requested_end` is falsy in Python, so it
defaults to the parsed requested start. -/
def calculate_availability_score
    (requested_start requested_end available_start available_end : String) : ℤ :=
  match parseDate requested_start with
  | none => 0
  | some req_start =>
    match (if requested_end = "" then some req_start else parseDate requested_end),
        parseDate available_start, parseDate available_end with
    | some req_end, some avail_start, some avail_end =>
      if dateLe avail_start req_start ∧ dateLe req_end avail_end then 40 else 0
    | _, _, _ => 0

/-- The function `calculate_service_score` of `main.py`: 20 points when
the lowercased requested service appears among the comma-split,
stripped, lowercased offered services of `str(offered_services)`. -/
def calculate_service_score (requested_service : String)
    (offered_services : Option String) : ℤ :=
  if pyLower requested_service ∈
      (pySplit (pyStr offered_services) ',').map (fun t => pyLower (pyStrip t))
  then 20 else 0

/-- Service scoring as section 4.4 of the specification words it: the
requested service is lowercased AND trimmed before the membership test.
Declared only to compare the specification's wording with the code,
which does not trim the requested service. -/
def service_score_spec (requested_service : String)
    (offered_services : Option String) : ℤ :=
  if pyLower (pyStrip requested_service) ∈
      (pySplit (pyStr offered_services) ',').map (fun t => pyLower (pyStrip t))
  then 20 else 0

/-- Degrees to radians, `math.radians`. -/
noncomputable def radians (x : ℝ) : ℝ := x * Real.pi / 180

/-- The body of the `try` block of `haversine_distance`: the haversine
formula in miles with Earth radius 3956, over exact reals. -/
noncomputable def haversineFormula (lat1 lon1 lat2 lon2 : ℝ) : ℝ :=
  let l1 := radians lat1
  let l2 := radians lat2
  let dlat := l2 - l1
  let dlon := radians lon2 - radians lon1
  let a := Real.sin (dlat / 2) ^ 2 +
    Real.cos l1 * Real.cos l2 * Real.sin (dlon / 2) ^ 2
  let c := 2 * Real.arcsin (Real.sqrt a)
  c * 3956

/-- A coordinate input to `haversine_distance`: a value that `float(x)`
converts to a finite number (`num`), one that it converts to an IEEE
NaN — such as `float("nan")` or a pandas missing numeric — without
raising (`nan`), or one on which the conversion raises (`invalid`).
Values converting to ±infinity are outside the model: the body's math
calls raise on most, but not all, such combinations. -/
inductive PyNum where
  | num (x : ℝ)
  | nan
  | invalid

/-- Discriminator for the conversion-raises case. -/
def PyNum.isInvalid : PyNum → Bool
  | PyNum.invalid => true
  | _ => false

/-- A Python float result: a real value, or an IEEE NaN. -/
inductive PyFloat where
  | val (x : ℝ)
  | nan

/-- The function `haversine_distance` of `main.py`: the haversine
formula when all four coordinates convert to finite floats; the
sentinel 999999 when the `try` block raises — the `float()` conversions
run before any arithmetic, so one raising coordinate dominates; and NaN
when every conversion succeeds but some coordinate is NaN, which
propagates through `radians`, `sin`, `cos`, `sqrt` and `asin` without
raising. -/
noncomputable def haversine_distance : PyNum → PyNum → PyNum → PyNum → PyFloat
  | PyNum.num lat1, PyNum.num lon1, PyNum.num lat2, PyNum.num lon2 =>
      PyFloat.val (haversineFormula lat1 lon1 lat2 lon2)
  | p, q, u, v =>
      if p.isInvalid || q.isInvalid || u.isInvalid || v.isInvalid then
        PyFloat.val 999999
      else PyFloat.nan

/-- The request body of the `/api/match` endpoint (`OwnerRequest` in
`main.py`); `endDate` is optional. -/
structure OwnerRequest where
  zipCode : String
  service : String
  startDate : String
  endDate : Option String
  needs : String

/-- One sitter record, with the columns the scoring loop reads;
`services` may be a missing value (`None`). -/
structure Sitter where
  name : String
  zip_code : String
  services : Option String
  special_needs : String
  availability_start : String
  availability_end : String

/-- One entry of the response (`SitterMatch` in `main.py`). -/
structure SitterMatch where
  name : String
  location : String
  distance : ℚ
  score : ℤ
  availability : String
  special_needs : String
deriving DecidableEq

/-- The sort key relation of the ranking step: descending by total
score (`key=lambda x: x["score"], reverse=True`). -/
def scoreGe (a b : SitterMatch) : Prop := b.score ≤ a.score

instance : DecidableRel scoreGe :=
  fun a b => inferInstanceAs (Decidable (b.score ≤ a.score))

instance : IsTotal SitterMatch scoreGe :=
  ⟨fun a b => le_total b.score a.score⟩

instance : IsTrans SitterMatch scoreGe :=
  ⟨fun _ _ _ h1 h2 => le_trans h2 h1⟩

/-- Python `round(q, 2)` scaled to the integer part: round half to
even. -/
def roundHalfEven (q : ℚ) : ℤ :=
  if q - ⌊q⌋ < 1 / 2 then ⌊q⌋
  else if q - ⌊q⌋ > 1 / 2 then ⌊q⌋ + 1
  else if ⌊q⌋ % 2 = 0 then ⌊q⌋ else ⌊q⌋ + 1

/-- Python `round(x, 2)`: round to two decimal places, halves to
even. -/
def round2 (q : ℚ) : ℚ := (roundHalfEven (q * 100) : ℚ) / 100

/-- One iteration of the scoring loop of `match_sitters`: assemble the
result record of one sitter, given the sitter's already-computed
haversine distance. -/
def score_sitter (req : OwnerRequest) (distance : ℚ) (s : Sitter) : SitterMatch :=
  { name := s.name
    location := s.zip_code
    distance := round2 distance
    score := calculate_distance_score distance +
      calculate_availability_score req.startDate (pyOr req.endDate req.startDate)
        s.availability_start s.availability_end +
      calculate_service_score req.service s.services +
      calculate_special_needs_score req.needs s.special_needs
    availability := s.availability_start ++ " to " ++ s.availability_end
    special_needs := s.special_needs }

/-- The ranking step of `match_sitters`:
`sorted(results, key=lambda x: x["score"], reverse=True)[:5]`, a stable
descending sort followed by truncation to the top 5. -/
def rank_results (results : List SitterMatch) : List SitterMatch :=
  (results.insertionSort scoreGe).take 5

/-- The scoring-and-ranking pipeline of `match_sitters`, after the
external collaborators supplied the candidate records and each
candidate's haversine distance. -/
def match_sitters (req : OwnerRequest) (sitters : List (Sitter × ℚ)) :
    List SitterMatch :=
  rank_results (sitters.map (fun p => score_sitter req p.2 p.1))

/-! Helper lemmas about the component scores. -/

theorem distance_score_bounds (d : ℚ) :
    10 ≤ calculate_distance_score d ∧ calculate_distance_score d ≤ 40 := by
  unfold calculate_distance_score
  split_ifs <;> norm_num

theorem availability_score_cases (a b c d : String) :
    calculate_availability_score a b c d = 0 ∨
      calculate_availability_score a b c d = 40 := by
  unfold calculate_availability_score
  split
  · exact Or.inl rfl
  · split
    · split
      · exact Or.inr rfl
      · exact Or.inl rfl
    · exact Or.inl rfl

theorem service_score_cases (req : String) (off : Option String) :
    calculate_service_score req off = 0 ∨ calculate_service_score req off = 20 := by
  unfold calculate_service_score
  split
  · exact Or.inr rfl
  · exact Or.inl rfl

theorem special_needs_score_bounds (o s : String) :
    0 ≤ calculate_special_needs_score o s ∧
      calculate_special_needs_score o s ≤ 20 := by
  unfold calculate_special_needs_score
  split_ifs with h1 h2
  · norm_num
  · norm_num
  · push_neg at h2
    have hone : (0 : ℚ) < ((needsSet o).card : ℚ) := by
      have hpos : 0 < (needsSet o).card :=
        Finset.card_pos.mpr (Finset.nonempty_iff_ne_empty.mpr h2.1)
      exact_mod_cast hpos
    have hm : (needsSet o ∩ needsSet s).card ≤ (needsSet o).card :=
      Finset.card_le_card Finset.inter_subset_left
    constructor
    · apply Int.ceil_nonneg
      positivity
    · apply Int.ceil_le.mpr
      push_cast
      have hcov : ((needsSet o ∩ needsSet s).card : ℚ) /
          ((needsSet o).card : ℚ) ≤ 1 := by
        rw [div_le_one hone]
        exact_mod_cast hm
      nlinarith [hcov]

/-- Claim C5: the distance score is the step function 40 for d ≤ 5,
35 for 5 < d ≤ 10, 30 for 10 < d ≤ 15, 25 for 15 < d ≤ 20, 20 for
20 < d ≤ 30, 15 for 30 < d ≤ 50 and 10 for d > 50; it is monotonically
non-increasing in the distance, every boundary value (5, 10, 15, 20,
30, 50) scores in the higher bucket, and the value is never below
10. -/
theorem claim_C5_distance_step :
    (∀ d : ℚ, d ≤ 5 → calculate_distance_score d = 40) ∧
    (∀ d : ℚ, 5 < d → d ≤ 10 → calculate_distance_score d = 35) ∧
    (∀ d : ℚ, 10 < d → d ≤ 15 → calculate_distance_score d = 30) ∧
    (∀ d : ℚ, 15 < d → d ≤ 20 → calculate_distance_score d = 25) ∧
    (∀ d : ℚ, 20 < d → d ≤ 30 → calculate_distance_score d = 20) ∧
    (∀ d : ℚ, 30 < d → d ≤ 50 → calculate_distance_score d = 15) ∧
    (∀ d : ℚ, 50 < d → calculate_distance_score d = 10) ∧
    (∀ d e : ℚ, d ≤ e → calculate_distance_score e ≤ calculate_distance_score d) ∧
    calculate_distance_score 5 = 40 ∧ calculate_distance_score 10 = 35 ∧
    calculate_distance_score 15 = 30 ∧ calculate_distance_score 20 = 25 ∧
    calculate_distance_score 30 = 20 ∧ calculate_distance_score 50 = 15 ∧
    (∀ d : ℚ, 10 ≤ calculate_distance_score d) := by
  refine ⟨?_, ?_, ?_, ?_, ?_, ?_, ?_, ?_, ?_, ?_, ?_, ?_, ?_, ?_, ?_⟩
  · intro d h
    unfold calculate_distance_score
    split_ifs <;> first | rfl | linarith
  · intro d h h2
    unfold calculate_distance_score
    split_ifs <;> first | rfl | linarith
  · intro d h h2
    unfold calculate_distance_score
    split_ifs <;> first | rfl | linarith
  · intro d h h2
    unfold calculate_distance_score
    split_ifs <;> first | rfl | linarith
  · intro d h h2
    unfold calculate_distance_score
    split_ifs <;> first | rfl | linarith
  · intro d h h2
    unfold calculate_distance_score
    split_ifs <;> first | rfl | linarith
  · intro d h
    unfold calculate_distance_score
    split_ifs <;> first | rfl | linarith
  · intro d e h
    unfold calculate_distance_score
    split_ifs <;> try norm_num
    all_goals linarith
  · rfl
  · rfl
  · rfl
  · rfl
  · rfl
  · rfl
  · intro d
    exact (distance_score_bounds d).1

/-- Claim C5 witness: concrete instances of the step function and of
monotonicity. -/
theorem claim_C5_witness :
    calculate_distance_score 3 = 40 ∧ calculate_distance_score 7 = 35 ∧
    calculate_distance_score 60 = 10 ∧
    calculate_distance_score 12 ≤ calculate_distance_score 8 := by
  obtain ⟨h1, h2, _, _, _, _, h7, hmono, _⟩ := claim_C5_distance_step
  exact ⟨h1 3 (by norm_num), h2 7 (by norm_num) (by norm_num),
    h7 60 (by norm_num), hmono 8 12 (by norm_num)⟩

/-- Claim C10: when the offered-services value is missing (`None`),
Python stringification turns it into the single normalized token
"none", so the service score against such a candidate is 20 exactly
when the requested service lowercases to "none", and 0 otherwise. -/
theorem claim_C10_none_token (req : String) :
    (pySplit (pyStr (none : Option String)) ',').map
        (fun t => pyLower (pyStrip t)) = ["none"] ∧
    calculate_service_score req none =
      (if pyLower req = "none" then 20 else 0) := by
  refine ⟨by decide, ?_⟩
  unfold calculate_service_score
  simp only [show (pySplit (pyStr (none : Option String)) ',').map
      (fun t => pyLower (pyStrip t)) = ["none"] from by decide,
    List.mem_singleton]

/-- Claim C3: every scored candidate's integer total score is the sum
of the distance, availability, service and special-needs scores and
satisfies 0 ≤ total ≤ 120, with the components bounded as distance
0-40, availability 0 or 40, service 0 or 20 and needs coverage
0-20. -/
theorem claim_C3_score_invariant (req : OwnerRequest) (distance : ℚ) (s : Sitter) :
    (score_sitter req distance s).score =
      calculate_distance_score distance +
        calculate_availability_score req.startDate (pyOr req.endDate req.startDate)
          s.availability_start s.availability_end +
        calculate_service_score req.service s.services +
        calculate_special_needs_score req.needs s.special_needs ∧
    0 ≤ (score_sitter req distance s).score ∧
    (score_sitter req distance s).score ≤ 120 ∧
    (0 ≤ calculate_distance_score distance ∧
      calculate_distance_score distance ≤ 40) ∧
    (calculate_availability_score req.startDate (pyOr req.endDate req.startDate)
        s.availability_start s.availability_end = 0 ∨
      calculate_availability_score req.startDate (pyOr req.endDate req.startDate)
        s.availability_start s.availability_end = 40) ∧
    (calculate_service_score req.service s.services = 0 ∨
      calculate_service_score req.service s.services = 20) ∧
    (0 ≤ calculate_special_needs_score req.needs s.special_needs ∧
      calculate_special_needs_score req.needs s.special_needs ≤ 20) := by
  have hd := distance_score_bounds distance
  have ha := availability_score_cases req.startDate
    (pyOr req.endDate req.startDate) s.availability_start s.availability_end
  have hs := service_score_cases req.service s.services
  have hn := special_needs_score_bounds req.needs s.special_needs
  have hscore : (score_sitter req distance s).score =
      calculate_distance_score distance +
        calculate_availability_score req.startDate (pyOr req.endDate req.startDate)
          s.availability_start s.availability_end +
        calculate_service_score req.service s.services +
        calculate_special_needs_score req.needs s.special_needs := rfl
  refine ⟨hscore, ?_, ?_, ⟨by linarith [hd.1], hd.2⟩, ha, hs, hn⟩
  · rw [hscore]
    rcases ha with ha | ha <;> rcases hs with hs | hs <;> omega
  · rw [hscore]
    rcases ha with ha | ha <;> rcases hs with hs | hs <;> omega

/-- Claim C7 counterexample: the code does not strip the requested
service before the membership test.  Per the claim (requested service
"lowercased and trimmed"), the request " catBoarding" against the
offered services "catBoarding, inHomeVisits" would score 20 — the
specification-worded `service_score_spec` does — but
`calculate_service_score` of the code scores it 0. -/
theorem claim_C7_counterexample :
    service_score_spec " catBoarding" (some "catBoarding, inHomeVisits") = 20 ∧
    calculate_service_score " catBoarding" (some "catBoarding, inHomeVisits") = 0 := by
  constructor <;> decide

/-- Claim C7 (amended): the service score is 20 exactly when the
requested service, lowercased but NOT trimmed, is among the tokens
obtained by splitting `str(offered_services)` on commas and trimming
and lowercasing each token; it is always 0 or 20 (never an error); an
empty offered-services field scores 0 against every nonempty requested
service (its only token is the empty string), and a missing
offered-services field scores 0 against every requested service that
does not lowercase to "none". -/
theorem claim_C7_service_score (req : String) (off : Option String) :
    (calculate_service_score req off = 20 ↔
      pyLower req ∈ (pySplit (pyStr off) ',').map (fun t => pyLower (pyStrip t))) ∧
    (calculate_service_score req off = 0 ∨ calculate_service_score req off = 20) ∧
    (req ≠ "" → calculate_service_score req (some "") = 0) ∧
    (pyLower req ≠ "none" → calculate_service_score req none = 0) := by
  refine ⟨?_, service_score_cases req off, ?_, ?_⟩
  · unfold calculate_service_score
    split_ifs with h <;> simp [h]
  · intro hreq
    have hlow : pyLower req ≠ "" := by
      intro hcontra
      apply hreq
      have hdata : List.map Char.toLower req.data = ([] : List Char) :=
        congrArg String.data hcontra
      have hnil : req.data = [] := List.map_eq_nil_iff.mp hdata
      cases req with
      | mk l =>
        cases hnil
        rfl
    unfold calculate_service_score
    rw [if_neg]
    rw [show (pySplit (pyStr (some "")) ',').map
      (fun t => pyLower (pyStrip t)) = [""] from by decide]
    simp [hlow]
  · intro hreq
    unfold calculate_service_score
    rw [if_neg]
    rw [show (pySplit (pyStr (none : Option String)) ',').map
      (fun t => pyLower (pyStrip t)) = ["none"] from by decide]
    simp [hreq]

/-- Claim C7 witness: concrete instances of the amended claim. -/
theorem claim_C7_witness :
    calculate_service_score "catBoarding" (some "catBoarding, inHomeVisits") = 20 ∧
    calculate_service_score "CatBoarding" (some "") = 0 ∧
    calculate_service_score "dogWalking" (none : Option String) = 0 := by
  refine ⟨?_, ?_, ?_⟩
  · exact (claim_C7_service_score "catBoarding"
      (some "catBoarding, inHomeVisits")).1.mpr (by decide)
  · exact (claim_C7_service_score "CatBoarding" (some "")).2.2.1 (by decide)
  · exact (claim_C7_service_score "dogWalking" none).2.2.2 (by decide)

/-- Claim C1 counterexample: the code has no boolean-flag availability
policy.  A candidate whose availability fields carry the truthy flag
value "yes" scores 0, not the 40 the claim's Policy B prescribes: date
parsing fails and the `except` branch returns 0. -/
theorem claim_C1_counterexample :
    calculate_availability_score "2025-01-10" "2025-01-12" "yes" "yes" = 0 := by
  decide

/-- Claim C1 (amended): `calculate_availability_score` implements only
the date-range policy and `match_sitters` always feeds it the
`availability_start` / `availability_end` fields; there is no
boolean-flag schema detection.  A candidate whose availability fields
hold values that do not parse as dates — in particular the flag values
"yes", "true", "1" in any capitalization — scores 0, never 40. -/
theorem claim_C1_no_flag_policy :
    (∀ rs re s e : String, parseDate s = none ∨ parseDate e = none →
      calculate_availability_score rs re s e = 0) ∧
    parseDate "yes" = none ∧ parseDate "true" = none ∧ parseDate "1" = none ∧
    parseDate "Yes" = none ∧ parseDate "True" = none ∧
    parseDate "YES" = none ∧ parseDate "TRUE" = none := by
  refine ⟨?_, by decide, by decide, by decide, by decide, by decide,
    by decide, by decide⟩
  intro rs re s e h
  unfold calculate_availability_score
  cases hrs : parseDate rs with
  | none => rfl
  | some R =>
    rcases h with h | h <;> rw [h] <;>
      cases hre : (if re = "" then some R else parseDate re) <;> simp

/-- Claim C1 witness: a date-range request against the flag value
"yes" in the availability-start field scores 0. -/
theorem claim_C1_witness :
    calculate_availability_score "2025-01-10" "2025-01-12" "yes" "2025-01-31" = 0 :=
  claim_C1_no_flag_policy.1 "2025-01-10" "2025-01-12" "yes" "2025-01-31"
    (Or.inl (by decide))

/-- Claim C9 counterexample: a NaN coordinate cannot be interpreted as
a finite number, yet `haversine_distance` does not return the sentinel
999999 on it — `float("nan")` converts without raising, the NaN
propagates through the formula, and the function returns NaN. -/
theorem claim_C9_counterexample :
    haversine_distance PyNum.nan (PyNum.num 0) (PyNum.num 0) (PyNum.num 0) ≠
      PyFloat.val 999999 ∧
    haversine_distance PyNum.nan (PyNum.num 0) (PyNum.num 0) (PyNum.num 0) =
      PyFloat.nan := by
  constructor
  · intro h
    exact PyFloat.noConfusion h
  · rfl

/-- Claim C9 (amended): `haversine_distance` returns the sentinel
999999 exactly when the `try` block raises, that is, when some
coordinate's `float()` conversion fails — and the conversions run
before any arithmetic, so a raising coordinate dominates; but a
coordinate that converts successfully to NaN does not reach the
`except` branch: the NaN propagates and the function returns NaN, not
999999, so such a candidate gets the ordinary far-distance score
instead of being forced to sort last. -/
theorem claim_C9_sentinel :
    (∀ p q u v : PyNum,
      p = PyNum.invalid ∨ q = PyNum.invalid ∨ u = PyNum.invalid ∨
        v = PyNum.invalid →
      haversine_distance p q u v = PyFloat.val 999999) ∧
    (∀ p q u v : PyNum,
      ¬ (p = PyNum.invalid ∨ q = PyNum.invalid ∨ u = PyNum.invalid ∨
        v = PyNum.invalid) →
      (p = PyNum.nan ∨ q = PyNum.nan ∨ u = PyNum.nan ∨ v = PyNum.nan) →
      haversine_distance p q u v = PyFloat.nan) := by
  constructor
  · intro p q u v h
    cases p <;> cases q <;> cases u <;> cases v <;>
      simp_all [haversine_distance, PyNum.isInvalid]
  · intro p q u v hinv hnan
    cases p <;> cases q <;> cases u <;> cases v <;>
      simp_all [haversine_distance, PyNum.isInvalid]

/-- Claim C9 witness: an invalid latitude yields the sentinel; a NaN
longitude (with no raising coordinate) yields NaN. -/
theorem claim_C9_witness :
    haversine_distance PyNum.invalid (PyNum.num 0) (PyNum.num 0) (PyNum.num 0) =
      PyFloat.val 999999 ∧
    haversine_distance (PyNum.num 0) PyNum.nan (PyNum.num 0) (PyNum.num 0) =
      PyFloat.nan :=
  ⟨claim_C9_sentinel.1 PyNum.invalid (PyNum.num 0) (PyNum.num 0) (PyNum.num 0)
      (Or.inl rfl),
    claim_C9_sentinel.2 (PyNum.num 0) PyNum.nan (PyNum.num 0) (PyNum.num 0)
      (by simp) (Or.inr (Or.inl rfl))⟩

/-- Squared sine is invariant under negating the half-difference. -/
theorem sin_sq_half_sub_comm (u v : ℝ) :
    Real.sin ((u - v) / 2) ^ 2 = Real.sin ((v - u) / 2) ^ 2 := by
  have h : (u - v) / 2 = -((v - u) / 2) := by ring
  rw [h, Real.sin_neg]
  ring

/-- The haversine formula is symmetric in its two coordinate pairs. -/
theorem haversineFormula_symm (lat1 lon1 lat2 lon2 : ℝ) :
    haversineFormula lat1 lon1 lat2 lon2 = haversineFormula lat2 lon2 lat1 lon1 := by
  simp only [haversineFormula, radians]
  rw [sin_sq_half_sub_comm (lat2 * Real.pi / 180) (lat1 * Real.pi / 180),
    sin_sq_half_sub_comm (lon2 * Real.pi / 180) (lon1 * Real.pi / 180),
    mul_comm (Real.cos (lat1 * Real.pi / 180)) (Real.cos (lat2 * Real.pi / 180))]

/-- The haversine formula vanishes on identical points. -/
theorem haversineFormula_self (lat lon : ℝ) :
    haversineFormula lat lon lat lon = 0 := by
  simp [haversineFormula, radians]

/-- Claim C8: `haversine_distance` is symmetric in its two coordinate
pairs (on all inputs, the invalid and NaN ones included), and is
exactly zero on two identical finite points. -/
theorem claim_C8_symmetry :
    (∀ p q u v : PyNum,
      haversine_distance p q u v = haversine_distance u v p q) ∧
    (∀ lat lon : ℝ,
      haversine_distance (PyNum.num lat) (PyNum.num lon)
        (PyNum.num lat) (PyNum.num lon) = PyFloat.val 0) := by
  constructor
  · intro p q u v
    cases p <;> cases q <;> cases u <;> cases v <;> try rfl
    exact congrArg PyFloat.val (haversineFormula_symm _ _ _ _)
  · intro lat lon
    exact congrArg PyFloat.val (haversineFormula_self lat lon)

/-- Claim C4: the special-needs bonus is 0 when either raw input is
empty or lowercases to "none" or "n/a", or when either normalized tag
set is empty; otherwise it equals ceil(20 * |owner ∩ sitter| / |owner|);
it always lies in [0, 20]; and it depends on the sitter string only
through its overlap with the owner's tag set, so candidate-only tags
cannot change it. -/
theorem claim_C4_needs_score (own sit : String) :
    ((own = "" ∨ sit = "" ∨ pyLower own ∈ ["none", "n/a", ""] ∨
        pyLower sit ∈ ["none", "n/a", ""]) →
      calculate_special_needs_score own sit = 0) ∧
    ((needsSet own = ∅ ∨ needsSet sit = ∅) →
      calculate_special_needs_score own sit = 0) ∧
    (¬ (own = "" ∨ sit = "" ∨ pyLower own ∈ ["none", "n/a", ""] ∨
        pyLower sit ∈ ["none", "n/a", ""]) →
      needsSet own ≠ ∅ → needsSet sit ≠ ∅ →
      calculate_special_needs_score own sit =
        ⌈20 * ((needsSet own ∩ needsSet sit).card : ℚ) /
          ((needsSet own).card : ℚ)⌉) ∧
    (0 ≤ calculate_special_needs_score own sit ∧
      calculate_special_needs_score own sit ≤ 20) ∧
    (∀ sit2 : String,
      ¬ (own = "" ∨ sit = "" ∨ pyLower own ∈ ["none", "n/a", ""] ∨
        pyLower sit ∈ ["none", "n/a", ""]) →
      ¬ (own = "" ∨ sit2 = "" ∨ pyLower own ∈ ["none", "n/a", ""] ∨
        pyLower sit2 ∈ ["none", "n/a", ""]) →
      needsSet sit ≠ ∅ → needsSet sit2 ≠ ∅ →
      needsSet own ∩ needsSet sit2 = needsSet own ∩ needsSet sit →
      calculate_special_needs_score own sit2 =
        calculate_special_needs_score own sit) := by
  refine ⟨?_, ?_, ?_, special_needs_score_bounds own sit, ?_⟩
  · intro h
    unfold calculate_special_needs_score
    rw [if_pos h]
  · intro h
    unfold calculate_special_needs_score
    by_cases h1 : own = "" ∨ sit = "" ∨ pyLower own ∈ ["none", "n/a", ""] ∨
      pyLower sit ∈ ["none", "n/a", ""]
    · rw [if_pos h1]
    · rw [if_neg h1, if_pos h]
  · intro h ho hs
    unfold calculate_special_needs_score
    rw [if_neg h, if_neg (by simp [ho, hs])]
    congr 1
    ring
  · intro sit2 hsc hsc2 hs hs2 hinter
    unfold calculate_special_needs_score
    rw [if_neg hsc2, if_neg hsc]
    by_cases ho : needsSet own = ∅
    · rw [if_pos (Or.inl ho : needsSet own = ∅ ∨ needsSet sit2 = ∅),
        if_pos (Or.inl ho : needsSet own = ∅ ∨ needsSet sit = ∅)]
    · rw [if_neg (by simp [ho, hs2]), if_neg (by simp [ho, hs]), hinter]

/-- Claim C4 witness: a two-tag owner overlapping a candidate on one
tag gets ceil(20 * 1 / 2) = 10 points; coverage is unchanged by the
candidate-only tag "c". -/
theorem claim_C4_witness :
    calculate_special_needs_score "a, b" "b, c" = 10 := by
  have h := (claim_C4_needs_score "a, b" "b, c").2.2.1
    (by decide) (by decide) (by decide)
  rw [h, show (needsSet "a, b" ∩ needsSet "b, c").card = 1 from by decide,
    show (needsSet "a, b").card = 2 from by decide]
  norm_num

/-- Claim C6: under the date-range schema the availability score is 40
exactly when the candidate window contains the requested interval
(avail_start ≤ req_start and req_end ≤ avail_end in calendar-date
order); an empty requested end defaults to the requested start; a
malformed date on either side scores 0 without raising; and the score
is always 0 or 40.  The last conjunct pins the date parser to
`strptime("%Y-%m-%d")` at its edge cases: a three- or five-digit year,
a three-digit month or day, a zero month, and an out-of-range day all
raise (score 0), while a zero-padded year, one-digit fields and a
space-padded day parse. -/
theorem claim_C6_availability (rs re avs ave : String) :
    (∀ R Re A E : Date, re ≠ "" → parseDate rs = some R →
      parseDate re = some Re → parseDate avs = some A →
      parseDate ave = some E →
      (calculate_availability_score rs re avs ave = 40 ↔
        (dateLe A R ∧ dateLe Re E))) ∧
    calculate_availability_score rs "" avs ave =
      calculate_availability_score rs rs avs ave ∧
    ((parseDate rs = none ∨ parseDate avs = none ∨ parseDate ave = none) →
      calculate_availability_score rs re avs ave = 0) ∧
    ((re ≠ "" ∧ parseDate re = none) →
      calculate_availability_score rs re avs ave = 0) ∧
    (calculate_availability_score rs re avs ave = 0 ∨
      calculate_availability_score rs re avs ave = 40) ∧
    (parseDate "999-01-10" = none ∧ parseDate "10000-01-10" = none ∧
      parseDate "2025-012-10" = none ∧ parseDate "2025-01-015" = none ∧
      parseDate "2025-00-10" = none ∧ parseDate "2025-13-01" = none ∧
      parseDate "2025-01-32" = none ∧ parseDate "0000-01-10" = none ∧
      parseDate "0999-01-10" = some ⟨999, 1, 10⟩ ∧
      parseDate "2025-1-5" = some ⟨2025, 1, 5⟩ ∧
      parseDate "2025-01- 5" = some ⟨2025, 1, 5⟩ ∧
      parseDate "2024-02-29" = some ⟨2024, 2, 29⟩ ∧
      parseDate "2025-02-29" = none) := by
  refine ⟨?_, ?_, ?_, ?_, availability_score_cases rs re avs ave, by decide⟩
  · intro R Re A E hre hrs hre2 havs have2
    unfold calculate_availability_score
    rw [hrs]
    dsimp only
    rw [if_neg hre, hre2, havs, have2]
    dsimp only
    split_ifs with h
    · simp [h]
    · simp [h]
  · unfold calculate_availability_score
    cases hrs : parseDate rs with
    | none => rfl
    | some R =>
      dsimp only
      rw [if_pos rfl, ite_self]
  · intro h
    unfold calculate_availability_score
    rcases h with h | h | h
    · rw [h]
    · cases hrs : parseDate rs with
      | none => rfl
      | some R =>
        dsimp only
        rw [h]
        cases hite : (if re = "" then some R else parseDate re) <;> rfl
    · cases hrs : parseDate rs with
      | none => rfl
      | some R =>
        dsimp only
        rw [h]
        cases hite : (if re = "" then some R else parseDate re) <;>
          cases havs2 : parseDate avs <;> rfl
  · intro h
    unfold calculate_availability_score
    cases hrs : parseDate rs with
    | none => rfl
    | some R =>
      dsimp only
      rw [if_neg h.1, h.2]

/-- Claim C6 witness: the specification's own examples — the interval
2025-01-10 to 2025-01-12 is contained in the window 2025-01-01 to
2025-01-31 (40 points) but not in 2025-01-13 to 2025-01-20
(0 points). -/
theorem claim_C6_witness :
    calculate_availability_score "2025-01-10" "2025-01-12" "2025-01-01"
      "2025-01-31" = 40 ∧
    calculate_availability_score "2025-01-10" "2025-01-12" "2025-01-13"
      "2025-01-20" = 0 := by
  constructor
  · exact ((claim_C6_availability "2025-01-10" "2025-01-12" "2025-01-01"
      "2025-01-31").1 ⟨2025, 1, 10⟩ ⟨2025, 1, 12⟩ ⟨2025, 1, 1⟩ ⟨2025, 1, 31⟩
      (by decide) (by decide) (by decide) (by decide) (by decide)).mpr
      (by decide)
  · have h := ((claim_C6_availability "2025-01-10" "2025-01-12" "2025-01-13"
      "2025-01-20").1 ⟨2025, 1, 10⟩ ⟨2025, 1, 12⟩ ⟨2025, 1, 13⟩ ⟨2025, 1, 20⟩
      (by decide) (by decide) (by decide) (by decide) (by decide))
    rcases availability_score_cases "2025-01-10" "2025-01-12" "2025-01-13"
      "2025-01-20" with h0 | h40
    · exact h0
    · exact absurd (h.mp h40).1 (by decide)

/-- Ordered insertion places an element before every element of equal
score, so filtering by an exact score sees the inserted element
first. -/
theorem filter_orderedInsert (s : ℤ) (x : SitterMatch) (l : List SitterMatch) :
    (l.orderedInsert scoreGe x).filter (fun m => m.score == s) =
      if x.score = s then x :: l.filter (fun m => m.score == s)
      else l.filter (fun m => m.score == s) := by
  induction l with
  | nil =>
    by_cases hx : x.score = s <;>
      simp [List.orderedInsert, hx]
  | cons b l ih =>
    by_cases hrb : scoreGe x b
    · rw [List.orderedInsert, if_pos hrb]
      by_cases hx : x.score = s <;>
        simp [List.filter_cons, hx]
    · rw [List.orderedInsert, if_neg hrb]
      have hrb2 : ¬ b.score ≤ x.score := hrb
      have hlt : x.score < b.score := not_le.mp hrb2
      by_cases hx : x.score = s
      · have hb : ¬ b.score = s := by omega
        simp [List.filter_cons, hx, hb, ih]
      · simp [List.filter_cons, hx, ih]

/-- The insertion sort of the ranking step is stable: restricted to any
one score, the sorted list is exactly the input list in input order. -/
theorem filter_insertionSort (s : ℤ) (l : List SitterMatch) :
    (l.insertionSort scoreGe).filter (fun m => m.score == s) =
      l.filter (fun m => m.score == s) := by
  induction l with
  | nil => rfl
  | cons x l ih =>
    rw [List.insertionSort, filter_orderedInsert]
    by_cases hx : x.score = s
    · rw [if_pos hx, ih, List.filter_cons, if_pos (by simp [hx])]
    · rw [if_neg hx, ih, List.filter_cons, if_neg (by simp [hx])]

/-- Claim C2: the matching run returns the scored results sorted
descending by total score, stably — filtering the sorted list to any
one score value yields the candidates with that score in input
order — truncated to at most 5 entries (exactly min 5 n), and an empty
candidate list yields an empty ranked list, not an error. -/
theorem claim_C2_ranking (req : OwnerRequest) (sitters : List (Sitter × ℚ)) :
    List.Sorted scoreGe (match_sitters req sitters) ∧
    (match_sitters req sitters).length = min 5 sitters.length ∧
    (∀ s : ℤ,
      ((sitters.map (fun p => score_sitter req p.2 p.1)).insertionSort
          scoreGe).filter (fun m => m.score == s) =
        (sitters.map (fun p => score_sitter req p.2 p.1)).filter
          (fun m => m.score == s)) ∧
    match_sitters req [] = [] := by
  refine ⟨?_, ?_, fun s => filter_insertionSort s _, rfl⟩
  · exact List.Pairwise.sublist (List.take_sublist 5 _)
      (List.sorted_insertionSort scoreGe _)
  · unfold match_sitters rank_results
    rw [List.length_take, List.length_insertionSort, List.length_map]

end PetSitter
